import Mathlib

/-!
Shallow embedding of the `folio` service (`src/folio/app.py`) of the
agari-helm repository, covering the permission-resolution pipeline
(`get_rpt_permissions`, `extract_scopes_from_rpt`, `validate_jwt_token`,
`authenticate_token`, `require_permissions`), the identity-broker client
calls (`create_project_resource`, `create_project_group_with_permission`,
`create_study_resource`, `create_study_group`,
`create_study_group_with_permission`, `create_song_study`), and the entity
CRUD handlers with soft delete, cascade protection and provisioning
orchestration (`PathogenList`/`ProjectList`/`StudyList` and the detail
resources).

Python dictionaries read with `.get(key, default)` are modelled with
`Option` fields; Python strings are Lean `String`s, with `str.startswith`
modelled on the character sequence (`pyStartsWith`); an outbound
`requests` call is modelled by its outcome: a response carrying a status
code and a decoded body, or a transport failure (exception).
-/

namespace Folio

/-- Outcome of one outbound HTTP call made with `requests`: a response with
a status code and (already decoded) JSON body, or a transport failure,
i.e. the call raised an exception. -/
inductive HttpOutcome (α : Type) where
  | resp (status : Nat) (body : α)
  | failure
deriving DecidableEq

/-- Models Python `s.startswith(p)`: the characters of `p` are a prefix of
the characters of `s`. -/
def pyStartsWith (s p : String) : Bool :=
  p.toList.isPrefixOf s.toList

/-- One permission object from the RPT exchange response body.  The code
reads the keys with `perm.get('rsname', '')` and `perm.get('scopes', [])`,
so both fields are optional. -/
structure RptPermission where
  rsname : Option String
  scopes : Option (List String)
deriving DecidableEq

/-- `get_rpt_permissions` (app.py lines 1362-1397): status 200 or 207
returns the decoded permissions array; any other status returns `[]`
(line 1393), and a transport failure is caught and also returns `[]`
(line 1397).  The Python function never returns `None`. -/
def get_rpt_permissions (exchange : HttpOutcome (List RptPermission)) :
    List RptPermission :=
  match exchange with
  | .resp status permissions =>
      if status = 200 ∨ status = 207 then permissions else []
  | .failure => []

/-- `extract_scopes_from_rpt` (app.py lines 1400-1414): for each permission
object emit `"<rsname>.<scope>"` into a set. -/
def extract_scopes_from_rpt (permissions : List RptPermission) : Finset String :=
  permissions.foldl
    (fun granted permission =>
      (permission.scopes.getD []).foldl
        (fun granted scope => insert ((permission.rsname.getD "") ++ "." ++ scope) granted)
        granted)
    ∅

/-- Identity fields of the unverified local JWT decode
(`jwt.decode(token, options=..verify_signature false..)`). -/
structure TokenClaims where
  preferred_username : Option String
  email : Option String
  display_name : Option String
  sub : Option String
  iss : Option String
  azp : Option String
  aud : Option String
deriving DecidableEq

/-- The payload assembled by `validate_jwt_token` on success. -/
structure Payload where
  rpt_permissions : List RptPermission
  granted_scopes : Finset String
  claims : Option TokenClaims
deriving DecidableEq

/-- `validate_jwt_token` (app.py lines 1417-1468).  `decoded` is the result
of the unverified local decode (used only to decorate identity fields, and
`none` when decoding raised).  The guard
`if not rpt_permissions and rpt_permissions != []` (line 1435) is mirrored
exactly: it returns `none` only when the permissions value is falsy yet not
the empty list. -/
def validate_jwt_token (decoded : Option TokenClaims)
    (exchange : HttpOutcome (List RptPermission)) : Option Payload :=
  let rpt_permissions := get_rpt_permissions exchange
  if rpt_permissions.isEmpty ∧ rpt_permissions ≠ [] then
    none
  else
    some { rpt_permissions := rpt_permissions
           granted_scopes := extract_scopes_from_rpt rpt_permissions
           claims := decoded }

/-- The user-info record built by `extract_user_info` (app.py lines
1471-1498), restricted to the fields the guards use.  Python's
`list(granted_scopes)` lists the set's elements in unspecified order; it is
modelled as the sorted listing, which has the same membership. -/
structure UserInfo where
  username : String
  permissions : List String
  rpt_permissions : List RptPermission
deriving DecidableEq

/-- `extract_user_info` (app.py lines 1471-1498). -/
def extract_user_info (payload : Payload) : UserInfo :=
  { username := (payload.claims.bind (·.preferred_username)).getD "unknown"
    permissions := payload.granted_scopes.sort (· ≤ ·)
    rpt_permissions := payload.rpt_permissions }

/-- Outcome of the `authenticate_token` decorator (app.py lines 1501-1525):
a 401 response with an error message, or the wrapped handler runs with the
user info bound into the request context. -/
inductive AuthResult where
  | denied (error : String)
  | ok (user : UserInfo)
deriving DecidableEq

/-- `authenticate_token` (app.py lines 1501-1525). -/
def authenticate_token (auth_header : Option String)
    (decoded : Option TokenClaims)
    (exchange : HttpOutcome (List RptPermission)) : AuthResult :=
  match auth_header with
  | none => .denied "No token provided"
  | some header =>
    if ¬ pyStartsWith header "Bearer " then .denied "No token provided"
    else
      match validate_jwt_token decoded exchange with
      | none => .denied "Invalid token"
      | some payload => .ok (extract_user_info payload)

/-- Scope formatting inside `require_permissions` (app.py line 1556):
`scope if scope.startswith('folio.') else f'folio.SCOPE'`. -/
def format_scope (scope : String) : String :=
  if pyStartsWith scope "folio." then scope else "folio." ++ scope

/-- The `missing_scopes` list built by `require_permissions` (app.py lines
1552-1558): each required scope is formatted, and kept when it is not in
the user's permission list. -/
def missing_scopes (required_scopes : List String)
    (user_permissions : List String) : List String :=
  (required_scopes.map format_scope).filter (fun s => decide (s ∉ user_permissions))

/-- Outcome of the `require_permissions` decorator: 401 without or with a
valid exchange, 403 carrying the error data (missing scopes, the user's
permission list and the raw RPT permissions, app.py lines 1564-1568), or
the wrapped handler runs. -/
inductive GuardOutcome where
  | noToken
  | invalidToken
  | forbidden (missing : List String) (user_permissions : List String)
      (rpt_permissions : List RptPermission)
  | proceed (user : UserInfo)
deriving DecidableEq

/-- HTTP status short-circuited by the guard (`none` when the handler runs). -/
def GuardOutcome.status : GuardOutcome → Option Nat
  | .noToken => some 401
  | .invalidToken => some 401
  | .forbidden _ _ _ => some 403
  | .proceed _ => none

/-- The permission check of `require_permissions` after a successful token
validation (app.py lines 1548-1574). -/
def require_permissions_check (required_scopes : List String)
    (user_info : UserInfo) : GuardOutcome :=
  let missing := missing_scopes required_scopes user_info.permissions
  if missing ≠ [] then
    .forbidden missing user_info.permissions user_info.rpt_permissions
  else
    .proceed user_info

/-- The full `require_permissions` decorator (app.py lines 1528-1577). -/
def require_permissions (required_scopes : List String)
    (auth_header : Option String) (decoded : Option TokenClaims)
    (exchange : HttpOutcome (List RptPermission)) : GuardOutcome :=
  match auth_header with
  | none => .noToken
  | some header =>
    if ¬ pyStartsWith header "Bearer " then .noToken
    else
      match validate_jwt_token decoded exchange with
      | none => .invalidToken
      | some payload => require_permissions_check required_scopes (extract_user_info payload)

/-! ### Identity-broker client calls -/

/-- The broker-side UMA resource record, as returned by a 201 response to
the resource registration call. -/
structure UmaResource where
  resName : String
deriving DecidableEq

/-- The broker-side group record, as returned after a 201 group creation. -/
structure KcGroup where
  groupName : String
deriving DecidableEq

/-- The three possible Python return values of the broker create helpers:
a truthy result object (the decoded dict, or `True`), Python `None`, or
Python `False`. -/
inductive PyResult (α : Type) where
  | val (a : α)
  | nullValue
  | falseValue
deriving DecidableEq

/-- Python truthiness of a `PyResult`: only the result object is truthy
(`None` and `False` are both falsy). -/
def PyResult.truthy : PyResult α → Bool
  | .val _ => true
  | .nullValue => false
  | .falseValue => false

/-- Python `is not False` on a `PyResult`: true for a result object and
for `None`, false only for `False`. -/
def PyResult.isNotFalse : PyResult α → Bool
  | .val _ => true
  | .nullValue => true
  | .falseValue => false

/-- `create_project_resource` (app.py lines 319-365): 201 returns the
decoded resource, 409 returns `None` (line 356), any other status returns
`False`, a missing service token or an exception returns `False`. -/
def create_project_resource (service_token_ok : Bool)
    (broker : HttpOutcome UmaResource) : PyResult UmaResource :=
  if ¬ service_token_ok then .falseValue
  else
    match broker with
    | .resp status body =>
        if status = 201 then .val body
        else if status = 409 then .nullValue
        else .falseValue
    | .failure => .falseValue

/-- `create_project_group_with_permission` (app.py lines 673-721): 201
returns `True`, 409 also returns `True` (line 714), anything else returns
`False`. -/
def create_project_group_with_permission (service_token_ok : Bool)
    (broker : HttpOutcome KcGroup) : Bool :=
  if ¬ service_token_ok then false
  else
    match broker with
    | .resp status _ =>
        if status = 201 then true
        else if status = 409 then true
        else false
    | .failure => false

/-- `create_study_resource` (app.py lines 948-993): same shape as
`create_project_resource` (201 returns the resource, 409 returns `None`,
otherwise `False`). -/
def create_study_resource (service_token_ok : Bool)
    (broker : HttpOutcome UmaResource) : PyResult UmaResource :=
  if ¬ service_token_ok then .falseValue
  else
    match broker with
    | .resp status body =>
        if status = 201 then .val body
        else if status = 409 then .nullValue
        else .falseValue
    | .failure => .falseValue

/-- `create_study_group` (app.py lines 1032-1090): 201 returns the group
dict, 409 returns `None` (line 1082), otherwise `False`. -/
def create_study_group (service_token_ok : Bool)
    (broker : HttpOutcome KcGroup) : PyResult KcGroup :=
  if ¬ service_token_ok then .falseValue
  else
    match broker with
    | .resp status body =>
        if status = 201 then .val body
        else if status = 409 then .nullValue
        else .falseValue
    | .failure => .falseValue

/-- `create_study_group_with_permission` (app.py lines 1265-1313): 201 and
409 both return `True` (lines 1303, 1306), anything else `False`. -/
def create_study_group_with_permission (service_token_ok : Bool)
    (broker : HttpOutcome KcGroup) : Bool :=
  if ¬ service_token_ok then false
  else
    match broker with
    | .resp status _ =>
        if status = 201 then true
        else if status = 409 then true
        else false
    | .failure => false

/-- `create_song_study` (app.py lines 3334-3367): 200 and 201 return the
decoded response, any other status and transport failures return `None`. -/
def create_song_study (resp : HttpOutcome α) : Option α :=
  match resp with
  | .resp status body => if status = 200 ∨ status = 201 then some body else none
  | .failure => none

/-! ### Entity store -/

/-- A row of the `pathogens` table. -/
structure PathogenRow where
  id : String
  name : String
  scientific_name : Option String
  description : Option String
  created_at : Nat
  updated_at : Nat
  deleted_at : Option Nat
deriving DecidableEq

/-- A row of the `projects` table. -/
structure ProjectRow where
  id : String
  name : String
  slug : String
  description : Option String
  organization_id : String
  user_id : Option String
  pathogen_id : Option String
  created_at : Nat
  updated_at : Nat
  deleted_at : Option Nat
deriving DecidableEq

/-- A row of the `studies` table. -/
structure StudyRow where
  id : String
  study_id : String
  name : String
  description : Option String
  project_id : String
  start_date : Option String
  end_date : Option String
  created_at : Nat
  updated_at : Nat
  deleted_at : Option Nat
deriving DecidableEq

/-- The relational store. -/
structure Db where
  pathogens : List PathogenRow
  projects : List ProjectRow
  studies : List StudyRow
deriving DecidableEq

/-- Observable steps of a creation handler, in execution order: the SQL
INSERT, the transaction COMMIT, and the provisioning calls (broker resource
registration, broker group creation, group-membership additions, and the
SONG metadata registration). -/
inductive Ev where
  | insertRow
  | commitRow
  | brokerResource
  | brokerGroup (perm : String)
  | brokerAddUser (perm : String)
  | songCreate
deriving DecidableEq

/-- Result of one handler invocation: the store after the request, the HTTP
status, the response body (when the claim needs its fields) and the trace
of observable steps. -/
structure HandlerResult (β : Type) where
  db : Db
  status : Nat
  body : Option β
  trace : List Ev
deriving DecidableEq

/-! ### Read endpoints -/

/-- `PathogenList.get` (app.py lines 2119-2142):
`SELECT * FROM pathogens WHERE deleted_at IS NULL ORDER BY name`.
The ORDER BY only permutes the result and is not modelled. -/
def pathogens_list_get (db : Db) : List PathogenRow :=
  db.pathogens.filter (fun p => p.deleted_at.isNone)

/-- `PathogenDetail.get` (app.py lines 2208-2230):
`SELECT * FROM pathogens WHERE id = %s AND deleted_at IS NULL`, 404 when no
row matches. -/
def pathogen_detail_get (db : Db) (pathogen_id : String) :
    Nat × Option PathogenRow :=
  match db.pathogens.find? (fun p => p.id == pathogen_id && p.deleted_at.isNone) with
  | none => (404, none)
  | some p => (200, some p)

/-- A project row joined with its pathogen's name
(`LEFT JOIN pathogens ON p.pathogen_id = pat.id`). -/
structure ProjectJoined where
  project : ProjectRow
  pathogen_name : Option String
deriving DecidableEq

/-- `ProjectList.get` (app.py lines 2431-2455): left join with pathogens,
`WHERE p.deleted_at IS NULL` (the join clause has no pathogen
deleted-filter there). ORDER BY is not modelled. -/
def projects_list_get (db : Db) : List ProjectJoined :=
  (db.projects.filter (fun p => p.deleted_at.isNone)).map (fun p =>
    { project := p
      pathogen_name :=
        (p.pathogen_id.bind (fun pid => db.pathogens.find? (fun pat => pat.id == pid))).map (·.name) })

/-- `ProjectDetail.get` (app.py lines 2578-2606):
`WHERE p.id = %s AND p.deleted_at IS NULL`, the left join additionally
filtered by `pat.deleted_at IS NULL`; 404 when no row matches. -/
def project_detail_get (db : Db) (project_id : String) :
    Nat × Option ProjectJoined :=
  match db.projects.find? (fun p => p.id == project_id && p.deleted_at.isNone) with
  | none => (404, none)
  | some p =>
      (200, some
        { project := p
          pathogen_name :=
            (p.pathogen_id.bind (fun pid =>
              db.pathogens.find? (fun pat => pat.id == pid && pat.deleted_at.isNone))).map (·.name) })

/-- The inner join `FROM studies s JOIN projects p ON s.project_id = p.id`
used by the study read endpoints.  No deleted-filter appears in any of
those queries. -/
def studies_join (db : Db) : List (StudyRow × ProjectRow) :=
  db.studies.filterMap (fun s =>
    (db.projects.find? (fun p => p.id == s.project_id)).map (fun p => (s, p)))

/-- A study row as returned by the study read endpoints: joined project
columns plus the `song_created` flag added to the serialized record. -/
structure StudyResponseRow where
  study : StudyRow
  project_slug : String
  project_name : String
  song_created : Bool
deriving DecidableEq

/-- `StudyList.get` (app.py lines 2760-2791): the join has no
`deleted_at` filter, and `song_created` is set to `False` for every row
(line 2783). ORDER BY is not modelled. -/
def studies_list_get (db : Db) : List StudyResponseRow :=
  (studies_join db).map (fun sp =>
    { study := sp.1, project_slug := sp.2.slug, project_name := sp.2.name
      song_created := false })

/-- `StudyDetail.get` (app.py lines 2888-2917): `WHERE s.study_id = %s`
with no `deleted_at` filter; 404 only when no row matches; `song_created`
is set to `False` (line 2911). -/
def study_detail_get (db : Db) (study_id : String) :
    Nat × Option StudyResponseRow :=
  match (studies_join db).find? (fun sp => sp.1.study_id == study_id) with
  | none => (404, none)
  | some sp =>
      (200, some { study := sp.1, project_slug := sp.2.slug, project_name := sp.2.name
                   song_created := false })

/-- `ProjectStudies.get` (app.py lines 1987-2028): the project existence
check `SELECT id FROM projects WHERE slug = %s` has no deleted-filter; the
study join is filtered by the project slug, again with no deleted-filter,
and `song_created` is set to `False` for every row (line 2019). -/
def project_studies_get (db : Db) (project_slug : String) :
    Nat × Option (List StudyResponseRow) :=
  match db.projects.find? (fun p => p.slug == project_slug) with
  | none => (404, none)
  | some _ =>
      (200, some (((studies_join db).filter (fun sp => sp.2.slug == project_slug)).map (fun sp =>
        { study := sp.1, project_slug := sp.2.slug, project_name := sp.2.name
          song_created := false })))

/-! ### Soft delete with cascade protection -/

/-- `PathogenDetail.delete` (app.py lines 2363-2419): find the non-deleted
pathogen (404 otherwise), count non-deleted projects referencing it (409
when positive, store untouched), else stamp `deleted_at`/`updated_at` on
the matching row and commit (204).  The `rowcount == 0` re-check after the
UPDATE is mirrored; it cannot fire in this single-request model. -/
def pathogen_delete (db : Db) (now : Nat) (pathogen_id : String) :
    HandlerResult PathogenRow :=
  match db.pathogens.find? (fun p => p.id == pathogen_id && p.deleted_at.isNone) with
  | none => ⟨db, 404, none, []⟩
  | some _ =>
    let child_count :=
      (db.projects.filter (fun pr => pr.pathogen_id == some pathogen_id && pr.deleted_at.isNone)).length
    if 0 < child_count then ⟨db, 409, none, []⟩
    else
      let rowcount :=
        (db.pathogens.filter (fun p => p.id == pathogen_id && p.deleted_at.isNone)).length
      if rowcount = 0 then ⟨db, 404, none, []⟩
      else
        ⟨{ db with pathogens := db.pathogens.map (fun p =>
             if p.id == pathogen_id && p.deleted_at.isNone then
               { p with deleted_at := some now, updated_at := now }
             else p) },
         204, none, []⟩

/-- `ProjectDetail.delete` (app.py lines 2702-2748): same pattern with
non-deleted studies referencing the project as the protected children. -/
def project_delete (db : Db) (now : Nat) (project_id : String) :
    HandlerResult ProjectRow :=
  match db.projects.find? (fun p => p.id == project_id && p.deleted_at.isNone) with
  | none => ⟨db, 404, none, []⟩
  | some _ =>
    let child_count :=
      (db.studies.filter (fun s => s.project_id == project_id && s.deleted_at.isNone)).length
    if 0 < child_count then ⟨db, 409, none, []⟩
    else
      let rowcount :=
        (db.projects.filter (fun p => p.id == project_id && p.deleted_at.isNone)).length
      if rowcount = 0 then ⟨db, 404, none, []⟩
      else
        ⟨{ db with projects := db.projects.map (fun p =>
             if p.id == project_id && p.deleted_at.isNone then
               { p with deleted_at := some now, updated_at := now }
             else p) },
         204, none, []⟩

/-! ### Creation handlers with provisioning orchestration -/

/-- `PathogenList.post` (app.py lines 2152-2196).  The uniqueness check
`SELECT id FROM pathogens WHERE name = %s` (line 2169) carries NO
`deleted_at` filter.  `new_id`/`now` stand for the generated key and the
database timestamp. -/
def pathogen_post (db : Db) (name : String)
    (scientific_name description : Option String)
    (new_id : String) (now : Nat) : HandlerResult PathogenRow :=
  if (db.pathogens.filter (fun p => p.name == name)) ≠ [] then
    ⟨db, 409, none, []⟩
  else
    let row : PathogenRow :=
      { id := new_id, name := name, scientific_name := scientific_name
        description := description, created_at := now, updated_at := now
        deleted_at := none }
    ⟨{ db with pathogens := db.pathogens ++ [row] }, 201, some row,
     [Ev.insertRow, Ev.commitRow]⟩

/-- Request body of `ProjectList.post`. -/
structure ProjectInput where
  name : String
  slug : String
  description : Option String
  pathogen_id : Option String
deriving DecidableEq

/-- The broker environment a project creation runs against: whether the
service-token exchange succeeds and the outcome of each broker call the
handler makes. -/
structure ProjectBrokerEnv where
  token_ok : Bool
  resource_resp : HttpOutcome UmaResource
  read_group_resp : HttpOutcome KcGroup
  write_group_resp : HttpOutcome KcGroup
  admin_group_resp : HttpOutcome KcGroup
deriving DecidableEq

/-- The row inserted by `ProjectList.post` (app.py lines 2500-2517);
`organization_id` falls back to `'default-org'` because
`extract_user_info` never sets one. -/
def projectRowOf (data : ProjectInput) (user_sub : Option String)
    (new_id : String) (now : Nat) : ProjectRow :=
  { id := new_id, name := data.name, slug := data.slug
    description := data.description, organization_id := "default-org"
    user_id := user_sub, pathogen_id := data.pathogen_id
    created_at := now, updated_at := now, deleted_at := none }

/-- `ProjectList.post` (app.py lines 2465-2566).  Order of operations:
slug uniqueness check (no deleted-filter, line 2489), pathogen existence
check (no deleted-filter, line 2495), INSERT, COMMIT (line 2518), then the
broker provisioning steps, each tolerating failure; membership additions
run only for the groups whose creation call returned `True` (lines
2549-2553).  The response (line 2559) is just the serialized project row:
none of the provisioning results reaches the body or the status. -/
def project_post (db : Db) (data : ProjectInput) (user_sub : Option String)
    (new_id : String) (now : Nat) (env : ProjectBrokerEnv) :
    HandlerResult ProjectRow :=
  if (db.projects.filter (fun p => p.slug == data.slug)) ≠ [] then
    ⟨db, 409, none, []⟩
  else if data.pathogen_id.elim false
            (fun pid => (db.pathogens.filter (fun pat => pat.id == pid)).isEmpty) then
    ⟨db, 400, none, []⟩
  else
    let row := projectRowOf data user_sub new_id now
    let read_group := create_project_group_with_permission env.token_ok env.read_group_resp
    let write_group := create_project_group_with_permission env.token_ok env.write_group_resp
    let admin_group := create_project_group_with_permission env.token_ok env.admin_group_resp
    ⟨{ db with projects := db.projects ++ [row] }, 201, some row,
     [Ev.insertRow, Ev.commitRow, Ev.brokerResource,
      Ev.brokerGroup "read", Ev.brokerGroup "write", Ev.brokerGroup "admin"]
     ++ (if read_group then [Ev.brokerAddUser "read"] else [])
     ++ (if write_group then [Ev.brokerAddUser "write"] else [])
     ++ (if admin_group then [Ev.brokerAddUser "admin"] else [])⟩

/-- Request body of `StudyList.post`. -/
structure StudyInput where
  study_id : String
  name : String
  description : Option String
  project_id : String
  start_date : Option String
  end_date : Option String
deriving DecidableEq

/-- The external environment a study creation runs against: the SONG
metadata call plus the broker calls. -/
structure StudyBrokerEnv where
  token_ok : Bool
  song_resp : HttpOutcome Unit
  resource_resp : HttpOutcome UmaResource
  main_group_resp : HttpOutcome KcGroup
  read_group_resp : HttpOutcome KcGroup
  write_group_resp : HttpOutcome KcGroup
  admin_group_resp : HttpOutcome KcGroup
deriving DecidableEq

/-- The `keycloak_created` status summary of the study creation response
(app.py lines 2858-2862). -/
structure KeycloakStatus where
  resource : Bool
  group : Bool
  permissions : Bool
deriving DecidableEq

/-- Body of the 201 study creation response (app.py lines 2866-2869). -/
structure StudyCreateResponse where
  row : StudyRow
  song_created : Bool
  keycloak_created : KeycloakStatus
deriving DecidableEq

/-- The row inserted by `StudyList.post` (app.py lines 2822-2835). -/
def studyRowOf (data : StudyInput) (new_id : String) (now : Nat) : StudyRow :=
  { id := new_id, study_id := data.study_id, name := data.name
    description := data.description, project_id := data.project_id
    start_date := data.start_date, end_date := data.end_date
    created_at := now, updated_at := now, deleted_at := none }

/-- `StudyList.post` (app.py lines 2800-2876).  Order of operations:
study-id uniqueness check (no deleted-filter, line 2812), project
existence check (no deleted-filter, line 2817), INSERT (line 2827), SONG
call (line 2838), broker resource (line 2844), main group (line 2847),
three permission groups (lines 2850-2852), then COMMIT (line 2856).  The
201 response carries `song_created` (`song_result is not None`) and
`keycloak_created` where resource and group use `is not False` (so a 409
`None` counts as success) and permissions is the conjunction of the three
group booleans. -/
def study_post (db : Db) (data : StudyInput) (new_id : String) (now : Nat)
    (env : StudyBrokerEnv) : HandlerResult StudyCreateResponse :=
  if (db.studies.filter (fun s => s.study_id == data.study_id)) ≠ [] then
    ⟨db, 409, none, []⟩
  else if (db.projects.filter (fun p => p.id == data.project_id)).isEmpty then
    ⟨db, 400, none, []⟩
  else
    let row := studyRowOf data new_id now
    let song_result := create_song_study env.song_resp
    let resource_result := create_study_resource env.token_ok env.resource_resp
    let group_result := create_study_group env.token_ok env.main_group_resp
    let read_group := create_study_group_with_permission env.token_ok env.read_group_resp
    let write_group := create_study_group_with_permission env.token_ok env.write_group_resp
    let admin_group := create_study_group_with_permission env.token_ok env.admin_group_resp
    ⟨{ db with studies := db.studies ++ [row] }, 201,
     some { row := row
            song_created := song_result.isSome
            keycloak_created :=
              { resource := resource_result.isNotFalse
                group := group_result.isNotFalse
                permissions := read_group && write_group && admin_group } },
     [Ev.insertRow, Ev.songCreate, Ev.brokerResource, Ev.brokerGroup "main",
      Ev.brokerGroup "read", Ev.brokerGroup "write", Ev.brokerGroup "admin",
      Ev.commitRow]⟩

/-- Provisioning steps: every outbound call to the broker or to SONG. -/
def provisioning_event : Ev → Bool
  | .brokerResource => true
  | .brokerGroup _ => true
  | .brokerAddUser _ => true
  | .songCreate => true
  | .insertRow => false
  | .commitRow => false

/-- True when no provisioning step occurs before the event `marker` in the
trace (scanning left to right, stopping at the first occurrence of
`marker`). -/
def no_provisioning_before (marker : Ev) : List Ev → Bool
  | [] => true
  | e :: rest =>
      if provisioning_event e then false
      else if e = marker then true
      else no_provisioning_before marker rest

/-! ### Concrete fixtures used by witnesses and counterexamples -/

/-- A live pathogen. -/
def paEx : PathogenRow := ⟨"pa1", "Malaria", none, none, 0, 0, none⟩

/-- A live project referencing `paEx`. -/
def prjEx : ProjectRow :=
  ⟨"pr1", "P1", "proj1", none, "default-org", none, some "pa1", 0, 0, none⟩

/-- A live study referencing `prjEx`. -/
def stEx : StudyRow := ⟨"st1", "study1", "S1", none, "pr1", none, none, 0, 0, none⟩

/-- `stEx` soft-deleted. -/
def stDel : StudyRow := { stEx with deleted_at := some 5 }

/-- `prjEx` soft-deleted. -/
def prjDel : ProjectRow := { prjEx with deleted_at := some 5 }

/-- `paEx` soft-deleted. -/
def paDel : PathogenRow := { paEx with deleted_at := some 5 }

/-- Store with a live pathogen → project → study chain. -/
def dbFull : Db := ⟨[paEx], [prjEx], [stEx]⟩

/-- Store where the study of the chain is soft-deleted. -/
def dbDelStudy : Db := ⟨[paEx], [prjEx], [stDel]⟩

/-- Store where the pathogen is live but its project (and study) are
soft-deleted. -/
def dbNoChildren : Db := ⟨[paEx], [prjDel], [stDel]⟩

/-- Store where the whole chain is soft-deleted. -/
def dbAllDel : Db := ⟨[paDel], [prjDel], [stDel]⟩

/-- A broker resource body. -/
def resEx : UmaResource := ⟨"proj1"⟩

/-- A broker group body. -/
def grpEx : KcGroup := ⟨"project-proj1-read"⟩

/-- Broker reachable and succeeding for a project creation. -/
def projEnvUp : ProjectBrokerEnv :=
  ⟨true, .resp 201 resEx, .resp 201 grpEx, .resp 201 grpEx, .resp 201 grpEx⟩

/-- Broker unreachable for a project creation (every call a transport
failure). -/
def projEnvDown : ProjectBrokerEnv :=
  ⟨true, .failure, .failure, .failure, .failure⟩

/-- SONG and broker reachable and succeeding for a study creation. -/
def studyEnvUp : StudyBrokerEnv :=
  ⟨true, .resp 200 (), .resp 201 resEx, .resp 201 grpEx, .resp 201 grpEx,
   .resp 201 grpEx, .resp 201 grpEx⟩

/-- SONG and broker unreachable for a study creation. -/
def studyEnvDown : StudyBrokerEnv :=
  ⟨true, .failure, .failure, .failure, .failure, .failure, .failure⟩

/-- A fresh project creation request against `dbFull`. -/
def projInputEx : ProjectInput := ⟨"P2", "proj2", none, some "pa1"⟩

/-- A fresh study creation request against `dbFull`. -/
def studyInputEx : StudyInput := ⟨"study2", "S2", none, "pr1", none, none⟩

/-- A project creation request reusing the soft-deleted slug `proj1`. -/
def projInput9 : ProjectInput := ⟨"P9", "proj1", none, none⟩

/-- A study creation request reusing the soft-deleted study id `study1`. -/
def studyInput9 : StudyInput := ⟨"study1", "S9", none, "pr1", none, none⟩

/-! ### Foldl membership lemmas for scope extraction -/

/-- Membership in the inner scope fold of `extract_scopes_from_rpt`. -/
theorem mem_scope_foldl (pre : String) (scopes : List String)
    (init : Finset String) (s : String) :
    s ∈ scopes.foldl (fun granted scope => insert (pre ++ "." ++ scope) granted) init ↔
      s ∈ init ∨ ∃ sc ∈ scopes, s = pre ++ "." ++ sc := by
  induction scopes generalizing init with
  | nil => simp
  | cons a l ih =>
    simp only [List.foldl_cons, ih, Finset.mem_insert, List.mem_cons]
    constructor
    · rintro (⟨h | h⟩ | ⟨sc, hsc, rfl⟩)
      · exact Or.inr ⟨a, Or.inl rfl, h⟩
      · exact Or.inl h
      · exact Or.inr ⟨sc, Or.inr hsc, rfl⟩
    · rintro (h | ⟨sc, hin | hin, rfl⟩)
      · exact Or.inl (Or.inr h)
      · exact Or.inl (Or.inl (by rw [hin]))
      · exact Or.inr ⟨sc, hin, rfl⟩

/-- Membership in the outer fold of `extract_scopes_from_rpt`. -/
theorem mem_extract_foldl (permissions : List RptPermission)
    (init : Finset String) (s : String) :
    s ∈ permissions.foldl
        (fun granted permission =>
          (permission.scopes.getD []).foldl
            (fun granted scope =>
              insert ((permission.rsname.getD "") ++ "." ++ scope) granted)
            granted)
        init ↔
      s ∈ init ∨ ∃ p ∈ permissions, ∃ sc ∈ p.scopes.getD [],
        s = (p.rsname.getD "") ++ "." ++ sc := by
  induction permissions generalizing init with
  | nil => simp
  | cons q l ih =>
    simp only [List.foldl_cons, ih, mem_scope_foldl, List.mem_cons]
    constructor
    · rintro (⟨h | ⟨sc, hsc, rfl⟩⟩ | ⟨p, hp, sc, hsc, rfl⟩)
      · exact Or.inl h
      · exact Or.inr ⟨q, Or.inl rfl, sc, hsc, rfl⟩
      · exact Or.inr ⟨p, Or.inr hp, sc, hsc, rfl⟩
    · rintro (h | ⟨p, hin | hin, sc, hsc, rfl⟩)
      · exact Or.inl (Or.inl h)
      · exact Or.inl (Or.inr ⟨sc, by rw [hin] at hsc ⊢; exact ⟨hsc, rfl⟩⟩)
      · exact Or.inr ⟨p, hin, sc, hsc, rfl⟩

/-! ### Claim theorems -/

/-- C1 (code bug exhibit): a failed RPT exchange does NOT terminate the
request as 401.  `get_rpt_permissions` returns `[]` both for a non-200/207
status and for a transport failure, which makes the
`if not rpt_permissions and rpt_permissions != []` guard in
`validate_jwt_token` unsatisfiable: the failed exchange is authenticated
with zero grants, indistinguishable from a genuinely empty success, and
`require_permissions` does not answer 401. -/
theorem C1_failed_exchange_collapses_to_empty_success :
    get_rpt_permissions (.resp 500 [{ rsname := some "r", scopes := some ["READ"] }]) = []
    ∧ get_rpt_permissions .failure = []
    ∧ validate_jwt_token none (.resp 500 [{ rsname := some "r", scopes := some ["READ"] }])
        = validate_jwt_token none (.resp 200 [])
    ∧ validate_jwt_token none .failure
        = some { rpt_permissions := [], granted_scopes := ∅, claims := none }
    ∧ authenticate_token (some "Bearer tok") none (.resp 500 [])
        = AuthResult.ok { username := "unknown", permissions := [], rpt_permissions := [] }
    ∧ (require_permissions [] (some "Bearer tok") none (.resp 500 [])).status ≠ some 401 := by
  refine ⟨by decide, by decide, by decide, by decide, ?_, by decide⟩
  show authenticate_token (some "Bearer tok") none (.resp 500 []) =
      AuthResult.ok { username := "unknown", permissions := [], rpt_permissions := [] }
  unfold authenticate_token validate_jwt_token extract_user_info
  simp [get_rpt_permissions, extract_scopes_from_rpt, Finset.sort_empty,
        show pyStartsWith "Bearer tok" "Bearer " = true from by decide]

/-- C4: the granted scope set of a successful exchange is exactly the set
of strings `rsname ++ "." ++ scope` over all (permission, scope) pairs,
with duplicates collapsed by set semantics; in particular one permission
`r` with scopes `[READ]` yields exactly the singleton set containing
`r.READ`. -/
theorem C4_extract_scopes_normalization (permissions : List RptPermission) :
    (∀ s : String, s ∈ extract_scopes_from_rpt permissions ↔
        ∃ p ∈ permissions, ∃ sc ∈ p.scopes.getD [],
          s = (p.rsname.getD "") ++ "." ++ sc)
    ∧ extract_scopes_from_rpt [{ rsname := some "r", scopes := some ["READ"] }]
        = {"r.READ"} := by
  refine ⟨fun s => ?_, by decide⟩
  simpa [extract_scopes_from_rpt] using mem_extract_foldl permissions ∅ s

/-- A scope that starts with `folio.` contains a dot. -/
theorem dot_mem_of_pyStartsWith_folio (s : String)
    (h : pyStartsWith s "folio." = true) : '.' ∈ s.toList :=
  (List.isPrefixOf_iff_prefix.mp h).subset (by decide)

/-- C2: in the `require_permissions` guard, every required scope without a
dot-qualified prefix is prefixed with the default namespace `folio.`; the
missing list is the set difference of the formatted required scopes and
the granted permissions; a non-empty missing list short-circuits to 403
carrying the error data, the user's permission list and the raw RPT
permission list; and requiring `WRITE` against a granted set lacking
`folio.WRITE` yields exactly `missing = [folio.WRITE]`. -/
theorem C2_require_scopes_guard (required : List String) (ui : UserInfo) :
    (∀ s ∈ required, '.' ∉ s.toList → format_scope s = "folio." ++ s)
    ∧ (∀ f, f ∈ missing_scopes required ui.permissions ↔
        f ∈ required.map format_scope ∧ f ∉ ui.permissions)
    ∧ (missing_scopes required ui.permissions ≠ [] →
        require_permissions_check required ui =
          .forbidden (missing_scopes required ui.permissions)
            ui.permissions ui.rpt_permissions
        ∧ (require_permissions_check required ui).status = some 403)
    ∧ (required = ["WRITE"] → "folio.WRITE" ∉ ui.permissions →
        require_permissions_check required ui =
          .forbidden ["folio.WRITE"] ui.permissions ui.rpt_permissions) := by
  refine ⟨?_, ?_, ?_, ?_⟩
  · intro s _ hdot
    unfold format_scope
    rw [if_neg]
    intro h
    exact hdot (dot_mem_of_pyStartsWith_folio s h)
  · intro f
    simp [missing_scopes]
  · intro hne
    unfold require_permissions_check
    rw [if_pos hne]
    exact ⟨rfl, rfl⟩
  · rintro rfl hmem
    have hfmt : format_scope "WRITE" = "folio.WRITE" := by decide
    have hmiss : missing_scopes ["WRITE"] ui.permissions = ["folio.WRITE"] := by
      simp [missing_scopes, hfmt, hmem]
    unfold require_permissions_check
    rw [hmiss, if_pos (by simp)]

/-- C2 witness: requiring `WRITE` of a user granted only `folio.READ`
yields the 403 outcome with `missing = [folio.WRITE]`. -/
theorem C2_require_scopes_guard_witness :
    require_permissions_check ["WRITE"]
        { username := "alice", permissions := ["folio.READ"], rpt_permissions := [] }
      = .forbidden ["folio.WRITE"] ["folio.READ"] [] :=
  (C2_require_scopes_guard ["WRITE"]
      { username := "alice", permissions := ["folio.READ"], rpt_permissions := [] }).2.2.2
    rfl (by decide)

/-- C3 counterexample: a project creation returns the bare project row
with status 201, and the response body is IDENTICAL whether the broker is
reachable (`projEnvUp`) or unreachable (`projEnvDown`): no
`keycloakCreated.resource` flag exists in the project creation response to
distinguish the two cases. -/
theorem C3_counterexample_project_response_has_no_flags :
    (project_post dbFull projInputEx (some "u1") "pr2" 7 projEnvUp).status = 201
    ∧ (project_post dbFull projInputEx (some "u1") "pr2" 7 projEnvDown).status = 201
    ∧ (project_post dbFull projInputEx (some "u1") "pr2" 7 projEnvUp).body
        = (project_post dbFull projInputEx (some "u1") "pr2" 7 projEnvDown).body
    ∧ (project_post dbFull projInputEx (some "u1") "pr2" 7 projEnvUp).body
        = some (projectRowOf projInputEx (some "u1") "pr2" 7) := by
  decide

/-- C3 (amended): when the insert path succeeds, provisioning failures
never change the HTTP outcome away from 201 and the row is committed, for
both project and study creation; but only the STUDY creation response
carries status flags (`keycloak_created`, `song_created`) — the project
creation response is the bare row, independent of the broker environment.
For study creation `keycloak_created.resource` is true when the broker
resource call succeeds and false when the broker is unreachable, with
status 201 in both cases. -/
theorem C3_amended_provisioning_never_fails_creation (db : Db)
    (data : ProjectInput) (sub : Option String) (nid : String) (now : Nat)
    (env env' : ProjectBrokerEnv) (sdb : Db) (sdata : StudyInput)
    (snid : String) (snow : Nat) (senv : StudyBrokerEnv) :
    (db.projects.filter (fun p => p.slug == data.slug) = [] →
     data.pathogen_id.elim false
       (fun pid => (db.pathogens.filter (fun pat => pat.id == pid)).isEmpty) = false →
      (project_post db data sub nid now env).status = 201
      ∧ (project_post db data sub nid now env).db.projects
          = db.projects ++ [projectRowOf data sub nid now]
      ∧ (project_post db data sub nid now env).body
          = (project_post db data sub nid now env').body)
    ∧ (sdb.studies.filter (fun s => s.study_id == sdata.study_id) = [] →
       (sdb.projects.filter (fun p => p.id == sdata.project_id)).isEmpty = false →
      (study_post sdb sdata snid snow senv).status = 201
      ∧ (study_post sdb sdata snid snow senv).db.studies
          = sdb.studies ++ [studyRowOf sdata snid snow]
      ∧ (study_post sdb sdata snid snow senv).body.map (fun b => b.keycloak_created.resource)
          = some (create_study_resource senv.token_ok senv.resource_resp).isNotFalse
      ∧ (study_post sdb sdata snid snow senv).body.map (fun b => b.song_created)
          = some (create_song_study senv.song_resp).isSome)
    ∧ (study_post dbFull studyInputEx "st2" 7 studyEnvUp).body.map
        (fun b => b.keycloak_created.resource) = some true
    ∧ (study_post dbFull studyInputEx "st2" 7 studyEnvDown).body.map
        (fun b => b.keycloak_created.resource) = some false
    ∧ (study_post dbFull studyInputEx "st2" 7 studyEnvDown).status = 201 := by
  refine ⟨?_, ?_, by decide, by decide, by decide⟩
  · intro h1 h2
    unfold project_post
    rw [h1, h2]
    simp
  · intro h1 h2
    unfold study_post
    rw [h1, h2]
    simp

/-- C3 witness: concrete creations against an unreachable broker still
answer 201. -/
theorem C3_amended_witness :
    (project_post dbFull projInputEx (some "u1") "pr2" 7 projEnvDown).status = 201
    ∧ (study_post dbFull studyInputEx "st2" 7 studyEnvDown).status = 201 :=
  ⟨((C3_amended_provisioning_never_fails_creation dbFull projInputEx (some "u1")
      "pr2" 7 projEnvDown projEnvUp dbFull studyInputEx "st2" 7 studyEnvDown).1
      (by decide) (by decide)).1,
   ((C3_amended_provisioning_never_fails_creation dbFull projInputEx (some "u1")
      "pr2" 7 projEnvDown projEnvUp dbFull studyInputEx "st2" 7 studyEnvDown).2.1
      (by decide) (by decide)).1⟩

/-- C8 counterexample: in a concrete successful study creation, the SONG
call and every broker call run BEFORE the commit — the trace commits
last. -/
theorem C8_counterexample_study_provisioning_before_commit :
    no_provisioning_before .commitRow
        (study_post dbFull studyInputEx "st2" 7 studyEnvUp).trace = false
    ∧ (study_post dbFull studyInputEx "st2" 7 studyEnvUp).trace =
        [Ev.insertRow, Ev.songCreate, Ev.brokerResource, Ev.brokerGroup "main",
         Ev.brokerGroup "read", Ev.brokerGroup "write", Ev.brokerGroup "admin",
         Ev.commitRow] := by
  decide

/-- C8 (amended): for project creation every provisioning step runs after
the COMMIT of the new row; for study creation every provisioning step runs
after the INSERT of the new row but before the COMMIT, which is the last
step of the trace. -/
theorem C8_amended_provisioning_order :
    (∀ db data sub nid now env,
      no_provisioning_before .commitRow (project_post db data sub nid now env).trace = true)
    ∧ (∀ db data nid now env,
      no_provisioning_before .insertRow (study_post db data nid now env).trace = true)
    ∧ (∀ db data nid now env,
      (study_post db data nid now env).trace = []
      ∨ (study_post db data nid now env).trace.getLast? = some .commitRow) := by
  refine ⟨?_, ?_, ?_⟩
  · intro db data sub nid now env
    unfold project_post
    split
    · rfl
    · split
      · rfl
      · simp [no_provisioning_before, provisioning_event]
  · intro db data nid now env
    unfold study_post
    split
    · rfl
    · split
      · rfl
      · simp [no_provisioning_before, provisioning_event]
  · intro db data nid now env
    unfold study_post
    split
    · exact Or.inl rfl
    · split
      · exact Or.inl rfl
      · exact Or.inr rfl

/-- C5 counterexample: a soft-deleted study still appears in the study
listing and its single read answers 200, not 404. -/
theorem C5_counterexample_soft_deleted_study_visible :
    stDel.deleted_at = some 5
    ∧ studies_list_get dbDelStudy =
        [{ study := stDel, project_slug := "proj1", project_name := "P1",
           song_created := false }]
    ∧ (study_detail_get dbDelStudy "study1").1 = 200 := by
  decide

/-- C5 (amended): soft-deleted pathogens and projects are excluded from
their listings and their single reads answer 404; but the study read
endpoints apply no deleted-filter: every joined study appears in the study
listing regardless of its `deleted_at`, and a matched single-study read
answers 200 regardless of its `deleted_at`. -/
theorem C5_amended_soft_delete_visibility (db : Db) (key : String) :
    (∀ p ∈ pathogens_list_get db, p.deleted_at = none)
    ∧ ((∀ r ∈ db.pathogens, r.id = key → r.deleted_at ≠ none) →
        (pathogen_detail_get db key).1 = 404)
    ∧ (∀ r ∈ projects_list_get db, r.project.deleted_at = none)
    ∧ ((∀ r ∈ db.projects, r.id = key → r.deleted_at ≠ none) →
        (project_detail_get db key).1 = 404)
    ∧ (∀ s ∈ db.studies, ∀ p,
        db.projects.find? (fun q => q.id == s.project_id) = some p →
        { study := s, project_slug := p.slug, project_name := p.name,
          song_created := false } ∈ studies_list_get db)
    ∧ (∀ sp, (studies_join db).find? (fun r => r.1.study_id == key) = some sp →
        (study_detail_get db key).1 = 200) := by
  refine ⟨?_, ?_, ?_, ?_, ?_, ?_⟩
  · intro p hp
    have := List.mem_filter.mp hp
    simpa [Option.isNone_iff_eq_none] using this.2
  · intro h
    have hfind : db.pathogens.find? (fun p => p.id == key && p.deleted_at.isNone) = none := by
      rw [List.find?_eq_none]
      intro x hx
      simp only [Bool.and_eq_true, beq_iff_eq, Option.isNone_iff_eq_none, not_and]
      intro hid
      exact h x hx hid
    unfold pathogen_detail_get
    rw [hfind]
  · intro r hr
    obtain ⟨p, hp, rfl⟩ := List.mem_map.mp hr
    have := List.mem_filter.mp hp
    simpa [Option.isNone_iff_eq_none] using this.2
  · intro h
    have hfind : db.projects.find? (fun p => p.id == key && p.deleted_at.isNone) = none := by
      rw [List.find?_eq_none]
      intro x hx
      simp only [Bool.and_eq_true, beq_iff_eq, Option.isNone_iff_eq_none, not_and]
      intro hid
      exact h x hx hid
    unfold project_detail_get
    rw [hfind]
  · intro s hs p hp
    have hjoin : (s, p) ∈ studies_join db :=
      List.mem_filterMap.mpr ⟨s, hs, by rw [hp]; rfl⟩
    exact List.mem_map_of_mem _ hjoin
  · intro sp hsp
    unfold study_detail_get
    rw [hsp]

/-- C5 witness: with the whole chain soft-deleted, the pathogen and
project reads 404, while the soft-deleted study is still listed and still
readable with 200. -/
theorem C5_amended_witness :
    (pathogen_detail_get dbAllDel "pa1").1 = 404
    ∧ (project_detail_get dbAllDel "pr1").1 = 404
    ∧ (study_detail_get dbDelStudy "study1").1 = 200 :=
  ⟨(C5_amended_soft_delete_visibility dbAllDel "pa1").2.1 (by decide),
   (C5_amended_soft_delete_visibility dbAllDel "pr1").2.2.2.1 (by decide),
   (C5_amended_soft_delete_visibility dbDelStudy "study1").2.2.2.2.2
     (stDel, prjEx) (by decide)⟩

/-- C6: deleting a pathogen referenced by a live project, or a project
referenced by a live study, answers 409 and leaves the store (and the
target's null `deleted_at`) unchanged; with no live children the delete
answers 204 and stamps `deleted_at` on the target row. -/
theorem C6_cascade_protection (db : Db) (now : Nat) (key : String) :
    (∀ p, db.pathogens.find? (fun q => q.id == key && q.deleted_at.isNone) = some p →
      ((∃ pr ∈ db.projects, pr.pathogen_id = some key ∧ pr.deleted_at = none) →
        pathogen_delete db now key = ⟨db, 409, none, []⟩ ∧ p.deleted_at = none)
      ∧ ((∀ pr ∈ db.projects, pr.pathogen_id = some key → pr.deleted_at ≠ none) →
        (pathogen_delete db now key).status = 204
        ∧ { p with deleted_at := some now, updated_at := now }
            ∈ (pathogen_delete db now key).db.pathogens))
    ∧ (∀ p, db.projects.find? (fun q => q.id == key && q.deleted_at.isNone) = some p →
      ((∃ s ∈ db.studies, s.project_id = key ∧ s.deleted_at = none) →
        project_delete db now key = ⟨db, 409, none, []⟩ ∧ p.deleted_at = none)
      ∧ ((∀ s ∈ db.studies, s.project_id = key → s.deleted_at ≠ none) →
        (project_delete db now key).status = 204
        ∧ { p with deleted_at := some now, updated_at := now }
            ∈ (project_delete db now key).db.projects)) := by
  constructor
  · intro p hfind
    have hpred := List.find?_some hfind
    have hmem := List.mem_of_find?_eq_some hfind
    simp only [Bool.and_eq_true, beq_iff_eq, Option.isNone_iff_eq_none] at hpred
    constructor
    · rintro ⟨pr, hpr, href, hlive⟩
      have hchild : pr ∈ db.projects.filter
          (fun pr => pr.pathogen_id == some key && pr.deleted_at.isNone) := by
        rw [List.mem_filter]
        exact ⟨hpr, by simp [href, hlive]⟩
      have hpos : 0 < (db.projects.filter
          (fun pr => pr.pathogen_id == some key && pr.deleted_at.isNone)).length :=
        List.length_pos.mpr (List.ne_nil_of_mem hchild)
      unfold pathogen_delete
      rw [hfind]
      simp only [if_pos hpos]
      exact ⟨by trivial, hpred.2⟩
    · intro hnone
      have hzero : (db.projects.filter
          (fun pr => pr.pathogen_id == some key && pr.deleted_at.isNone)).length = 0 := by
        rw [List.length_eq_zero, List.filter_eq_nil_iff]
        intro pr hpr
        simp only [Bool.and_eq_true, beq_iff_eq, Option.isNone_iff_eq_none, not_and]
        intro href
        exact hnone pr hpr href
      have hrow : p ∈ db.pathogens.filter
          (fun q => q.id == key && q.deleted_at.isNone) := by
        rw [List.mem_filter]
        exact ⟨hmem, by simp [hpred.1, hpred.2]⟩
      have hcount : (db.pathogens.filter
          (fun q => q.id == key && q.deleted_at.isNone)).length ≠ 0 :=
        Nat.pos_iff_ne_zero.mp (List.length_pos.mpr (List.ne_nil_of_mem hrow))
      have hlt : ¬ 0 < (db.projects.filter
          (fun pr => pr.pathogen_id == some key && pr.deleted_at.isNone)).length := by
        rw [hzero]
        exact lt_irrefl 0
      unfold pathogen_delete
      rw [hfind]
      simp only [if_neg hlt, if_neg hcount]
      refine ⟨by trivial, ?_⟩
      have : (fun q : PathogenRow =>
          if q.id == key && q.deleted_at.isNone then
            { q with deleted_at := some now, updated_at := now } else q) p
          = { p with deleted_at := some now, updated_at := now } := by
        simp [hpred.1, hpred.2]
      exact this ▸ List.mem_map_of_mem _ hmem
  · intro p hfind
    have hpred := List.find?_some hfind
    have hmem := List.mem_of_find?_eq_some hfind
    simp only [Bool.and_eq_true, beq_iff_eq, Option.isNone_iff_eq_none] at hpred
    constructor
    · rintro ⟨s, hs, href, hlive⟩
      have hchild : s ∈ db.studies.filter
          (fun s => s.project_id == key && s.deleted_at.isNone) := by
        rw [List.mem_filter]
        exact ⟨hs, by simp [href, hlive]⟩
      have hpos : 0 < (db.studies.filter
          (fun s => s.project_id == key && s.deleted_at.isNone)).length :=
        List.length_pos.mpr (List.ne_nil_of_mem hchild)
      unfold project_delete
      rw [hfind]
      simp only [if_pos hpos]
      exact ⟨by trivial, hpred.2⟩
    · intro hnone
      have hzero : (db.studies.filter
          (fun s => s.project_id == key && s.deleted_at.isNone)).length = 0 := by
        rw [List.length_eq_zero, List.filter_eq_nil_iff]
        intro s hs
        simp only [Bool.and_eq_true, beq_iff_eq, Option.isNone_iff_eq_none, not_and]
        intro href
        exact hnone s hs href
      have hrow : p ∈ db.projects.filter
          (fun q => q.id == key && q.deleted_at.isNone) := by
        rw [List.mem_filter]
        exact ⟨hmem, by simp [hpred.1, hpred.2]⟩
      have hcount : (db.projects.filter
          (fun q => q.id == key && q.deleted_at.isNone)).length ≠ 0 :=
        Nat.pos_iff_ne_zero.mp (List.length_pos.mpr (List.ne_nil_of_mem hrow))
      have hlt : ¬ 0 < (db.studies.filter
          (fun s => s.project_id == key && s.deleted_at.isNone)).length := by
        rw [hzero]
        exact lt_irrefl 0
      unfold project_delete
      rw [hfind]
      simp only [if_neg hlt, if_neg hcount]
      refine ⟨by trivial, ?_⟩
      have : (fun q : ProjectRow =>
          if q.id == key && q.deleted_at.isNone then
            { q with deleted_at := some now, updated_at := now } else q) p
          = { p with deleted_at := some now, updated_at := now } := by
        simp [hpred.1, hpred.2]
      exact this ▸ List.mem_map_of_mem _ hmem

/-- C6 witness: against the live chain, deleting the pathogen and deleting
the project both answer 409 leaving the store unchanged; once the children
are soft-deleted, the pathogen delete answers 204 and the project delete
answers 204. -/
theorem C6_cascade_protection_witness :
    pathogen_delete dbFull 9 "pa1" = ⟨dbFull, 409, none, []⟩
    ∧ project_delete dbFull 9 "pr1" = ⟨dbFull, 409, none, []⟩
    ∧ (pathogen_delete dbNoChildren 9 "pa1").status = 204
    ∧ (project_delete dbDelStudy 9 "pr1").status = 204 :=
  ⟨(((C6_cascade_protection dbFull 9 "pa1").1 paEx (by decide)).1
      ⟨prjEx, by decide, by decide, by decide⟩).1,
   (((C6_cascade_protection dbFull 9 "pr1").2 prjEx (by decide)).1
      ⟨stEx, by decide, by decide, by decide⟩).1,
   (((C6_cascade_protection dbNoChildren 9 "pa1").1 paEx (by decide)).2
      (by decide)).1,
   (((C6_cascade_protection dbDelStudy 9 "pr1").2 prjEx (by decide)).2
      (by decide)).1⟩

/-- C7 counterexample: a 409 from the broker's resource registration is
NOT mapped to the same outcome as a fresh 201: `create_project_resource`
returns the resource object on 201 but `None` on 409, and the
`ProjectList.post` caller's truthiness test (`if resource_created:`)
classifies the 409 result with failure. -/
theorem C7_counterexample_resource_conflict_not_success :
    create_project_resource true (.resp 201 resEx) = .val resEx
    ∧ create_project_resource true (.resp 409 resEx) = .nullValue
    ∧ (create_project_resource true (.resp 201 resEx)).truthy = true
    ∧ (create_project_resource true (.resp 409 resEx)).truthy = false := by
  decide

/-- C7 (amended): the group-creation calls map a broker 409 to `True`,
the same outcome as a fresh 201, with any other status mapping to `False`;
the resource-creation calls map 409 to `None`, which differs from a fresh
201 (a falsy value for the project-creation caller), although the
study-creation response flag (`is not False`) still counts it as
success. -/
theorem C7_amended_conflict_mapping (g r : KcGroup) (u : UmaResource)
    (status : Nat) :
    create_project_group_with_permission true (.resp 409 g) = true
    ∧ create_project_group_with_permission true (.resp 201 r) = true
    ∧ create_study_group_with_permission true (.resp 409 g) = true
    ∧ (status ≠ 201 → status ≠ 409 →
        create_project_group_with_permission true (.resp status g) = false)
    ∧ create_project_resource true (.resp 409 u) = .nullValue
    ∧ create_study_resource true (.resp 409 u) = .nullValue
    ∧ (create_project_resource true (.resp 409 u)).truthy = false
    ∧ (create_project_resource true (.resp 409 u)).isNotFalse = true := by
  refine ⟨rfl, rfl, rfl, ?_, rfl, rfl, rfl, rfl⟩
  intro h1 h2
  simp [create_project_group_with_permission, h1, h2]

/-- C7 witness: a broker 500 on group creation maps to `False`. -/
theorem C7_amended_conflict_mapping_witness :
    create_project_group_with_permission true (.resp 500 grpEx) = false :=
  ((C7_amended_conflict_mapping grpEx grpEx resEx 500).2.2.2.1
    (by decide) (by decide))

/-- C9: the uniqueness checks of the three creation handlers carry no
deleted-filter, so a soft-deleted row with the same key still causes a
409 and the store stays unchanged: a soft-deleted entity's unique key can
never be reused. -/
theorem C9_soft_deleted_keys_block_creation (db : Db) (t : Nat)
    (pname : String) (sci desc : Option String)
    (pdata : ProjectInput) (sub : Option String)
    (sdata : StudyInput) (nid : String) (now : Nat)
    (penv : ProjectBrokerEnv) (senv : StudyBrokerEnv) :
    (∀ p ∈ db.pathogens, p.name = pname → p.deleted_at = some t →
      pathogen_post db pname sci desc nid now = ⟨db, 409, none, []⟩)
    ∧ (∀ p ∈ db.projects, p.slug = pdata.slug → p.deleted_at = some t →
      project_post db pdata sub nid now penv = ⟨db, 409, none, []⟩)
    ∧ (∀ s ∈ db.studies, s.study_id = sdata.study_id → s.deleted_at = some t →
      study_post db sdata nid now senv = ⟨db, 409, none, []⟩) := by
  refine ⟨?_, ?_, ?_⟩
  · intro p hp hname _
    have hne : db.pathogens.filter (fun q => q.name == pname) ≠ [] :=
      List.ne_nil_of_mem (List.mem_filter.mpr ⟨hp, by simp [hname]⟩)
    unfold pathogen_post
    rw [if_pos hne]
  · intro p hp hslug _
    have hne : db.projects.filter (fun q => q.slug == pdata.slug) ≠ [] :=
      List.ne_nil_of_mem (List.mem_filter.mpr ⟨hp, by simp [hslug]⟩)
    unfold project_post
    rw [if_pos hne]
  · intro s hs hsid _
    have hne : db.studies.filter (fun q => q.study_id == sdata.study_id) ≠ [] :=
      List.ne_nil_of_mem (List.mem_filter.mpr ⟨hs, by simp [hsid]⟩)
    unfold study_post
    rw [if_pos hne]

/-- C9 witness: with the whole chain soft-deleted, re-creating the same
pathogen name, project slug and study id all answer 409 without touching
the store. -/
theorem C9_soft_deleted_keys_block_creation_witness :
    pathogen_post dbAllDel "Malaria" none none "pa9" 9 = ⟨dbAllDel, 409, none, []⟩
    ∧ project_post dbAllDel projInput9 none "pr9" 9 projEnvUp = ⟨dbAllDel, 409, none, []⟩
    ∧ study_post dbAllDel studyInput9 "st9" 9 studyEnvUp = ⟨dbAllDel, 409, none, []⟩ :=
  ⟨(C9_soft_deleted_keys_block_creation dbAllDel 5 "Malaria" none none
      projInput9 none studyInput9 "pa9" 9 projEnvUp studyEnvUp).1
      paDel (by decide) (by decide) (by decide),
   (C9_soft_deleted_keys_block_creation dbAllDel 5 "Malaria" none none
      projInput9 none studyInput9 "pr9" 9 projEnvUp studyEnvUp).2.1
      prjDel (by decide) (by decide) (by decide),
   (C9_soft_deleted_keys_block_creation dbAllDel 5 "Malaria" none none
      projInput9 none studyInput9 "st9" 9 projEnvUp studyEnvUp).2.2
      stDel (by decide) (by decide) (by decide)⟩

/-- C10: every study row returned by the study listing, the single-study
read and the per-project study listing carries `song_created = false`
unconditionally; only the creation response can report `song_created`
as true (shown by a concrete successful creation). -/
theorem C10_reads_report_song_created_false (db : Db) (sid slug : String) :
    (∀ r ∈ studies_list_get db, r.song_created = false)
    ∧ (∀ b, (study_detail_get db sid).2 = some b → b.song_created = false)
    ∧ (∀ l, (project_studies_get db slug).2 = some l →
        ∀ r ∈ l, r.song_created = false)
    ∧ (study_post dbFull studyInputEx "st2" 7 studyEnvUp).body.map
        (fun b => b.song_created) = some true := by
  refine ⟨?_, ?_, ?_, by decide⟩
  · intro r hr
    obtain ⟨sp, _, rfl⟩ := List.mem_map.mp hr
    rfl
  · intro b hb
    unfold study_detail_get at hb
    rcases hfind : (studies_join db).find? (fun sp => sp.1.study_id == sid) with _ | sp
    · rw [hfind] at hb
      cases hb
    · rw [hfind] at hb
      simp only [Option.some.injEq] at hb
      subst hb
      rfl
  · intro l hl r hr
    unfold project_studies_get at hl
    rcases hfind : db.projects.find? (fun p => p.slug == slug) with _ | p
    · rw [hfind] at hl
      cases hl
    · rw [hfind] at hl
      simp only [Option.some.injEq] at hl
      subst hl
      obtain ⟨sp, _, rfl⟩ := List.mem_map.mp hr
      rfl

/-- C10 witness: the concretely listed soft-deleted study reports
`song_created = false` in all three read endpoints. -/
theorem C10_reads_report_song_created_false_witness :
    ∀ r ∈ studies_list_get dbDelStudy, r.song_created = false :=
  (C10_reads_report_song_created_false dbDelStudy "study1" "proj1").1

end Folio
